import Mathlib

/-!
Shallow embedding of `spyder/plugins/completion/kite/widgets/install.py`:
the Kite installer dialog (`KiteInstallerDialog`) together with the
installation-progress widget (`KiteInstallation`).

GUI widgets are modelled by the state the dialog code reads and writes:
visibility flags for the three screens, the progress label and progress-bar
range and value, the dialog result (Qt accept/reject), the externally owned
installation worker thread, the list of configuration writes issued through
`CONF.set`, and the list of modal message boxes displayed.  Blocking
question boxes (the cancellation confirmation of `cancel_install`) are
modelled by passing the user's reply as an input.
-/

/-- Modelled from the spec: status constant `ERRORED` imported from
`spyder.plugins.completion.kite.utils.install` (that module is not part of
this slice); the spec describes the worker status as an enumeration with
values installing, errored, finished, cancelled. -/
def ERRORED : String := "errored"

/-- Modelled from the spec: status constant `INSTALLING` imported from
`spyder.plugins.completion.kite.utils.install`. -/
def INSTALLING : String := "installing"

/-- Modelled from the spec: status constant `FINISHED` imported from
`spyder.plugins.completion.kite.utils.install`. -/
def FINISHED : String := "finished"

/-- Modelled from the spec: status constant `CANCELLED` imported from
`spyder.plugins.completion.kite.utils.install`. -/
def CANCELLED : String := "cancelled"

/-- Modelled from the spec: the external installation worker thread
(`kite_installation_thread`), an object exposing a mutable `status` field,
a `cancelled` flag settable by the UI, a start-installation operation
(`install`), a stop operation (`quit`) and a running check (`isRunning`).
`installCalls` and `quitCalls` count the invocations of `install()` and
`quit()` made by the dialog; they are instrumentation, not worker fields. -/
structure InstallationThread where
  status : String
  cancelled : Bool
  running : Bool
  installCalls : Nat
  quitCalls : Nat
deriving DecidableEq

/-- State of the `KiteInstallation` progress widget: the text of
`self._progress_label`, the range and value of `self._progress_bar`,
and the widget visibility. -/
structure KiteInstallation where
  progress_label : String
  progress_min : Int
  progress_max : Int
  progress_value : Int
  visible : Bool
deriving DecidableEq

/-- `KiteInstallation.update_installation_status`: sets the progress label
text to `status` and, when `status == INSTALLING`, switches the progress
bar to the indeterminate range `(0, 0)`. -/
def KiteInstallation.update_installation_status
    (w : KiteInstallation) (status : String) : KiteInstallation :=
  let w := { w with progress_label := status }
  if status = INSTALLING then
    { w with progress_min := 0, progress_max := 0 }
  else
    w

/-- `KiteInstallation.update_installation_progress`: sets the progress bar
maximum to `total` and its value to `current_value`. -/
def KiteInstallation.update_installation_progress
    (w : KiteInstallation) (current_value total : Int) : KiteInstallation :=
  { w with progress_max := total, progress_value := current_value }

/-- A write issued to the configuration store via
`CONF.set(sectionName, option, value)`. -/
structure ConfWrite where
  sectionName : String
  option : String
  value : Bool
deriving DecidableEq

/-- A modal message box displayed by the dialog code. -/
structure MessageBox where
  title : String
  text : String
  helpUrl : String
deriving DecidableEq

/-- The error box built by `KiteInstallerDialog._handle_error_msg`: a fixed
text, the window title given by `setWindowTitle`, and a
"Contact Kite for help" button opening the Kite contact URL. -/
def kiteInstallErrorBox : MessageBox :=
  { title := "Kite install error"
    text := "An error ocurred while Kite was installing! You can follow our manual install instructions to integrate Kite with Spyder yourself."
    helpUrl := "https://kite.com/contact/" }

/-- Result state of a `QDialog`: no result yet, accepted, or rejected. -/
inductive DialogResult where
  | noResult : DialogResult
  | accepted : DialogResult
  | rejected : DialogResult
deriving DecidableEq

/-- State of the `KiteInstallerDialog`: the visibility of the three screen
widgets (`self._integration_widget`, `self._welcome_widget`,
`self._installation_widget`), the dialog visibility and result, the
external worker thread, the configuration writes issued so far, and the
modal message boxes displayed so far. -/
structure KiteInstallerDialog where
  integration_visible : Bool
  welcome_visible : Bool
  installation_widget : KiteInstallation
  dialog_visible : Bool
  result : DialogResult
  thread : InstallationThread
  conf_writes : List ConfWrite
  message_boxes : List MessageBox
deriving DecidableEq

namespace KiteInstallerDialog

/-- `QWidget.hide` on the dialog itself. -/
def hide (s : KiteInstallerDialog) : KiteInstallerDialog :=
  { s with dialog_visible := false }

/-- `QDialog.accept`: sets the result to accepted and closes the dialog. -/
def accept (s : KiteInstallerDialog) : KiteInstallerDialog :=
  { s with dialog_visible := false, result := DialogResult.accepted }

/-- `QDialog.reject` of the base class (invoked as
`super(KiteInstallerDialog, self).reject()`): sets the result to rejected
and closes the dialog. -/
def superReject (s : KiteInstallerDialog) : KiteInstallerDialog :=
  { s with dialog_visible := false, result := DialogResult.rejected }

/-- `KiteInstallerDialog.__init__`: the integration (info) widget is shown,
the welcome and installation widgets are hidden
(`self._welcome_widget.hide()`, `self._installation_widget.hide()`);
the dialog itself is not yet shown, no result is set, nothing has been
written to the configuration store and no message box has been shown.
The progress widget starts with the label `Downloading` and the Qt default
progress-bar range `(0, 100)` with unset value `-1`. -/
def init (thread : InstallationThread) : KiteInstallerDialog :=
  { integration_visible := true
    welcome_visible := false
    installation_widget :=
      { progress_label := "Downloading"
        progress_min := 0
        progress_max := 100
        progress_value := -1
        visible := false }
    dialog_visible := false
    result := DialogResult.noResult
    thread := thread
    conf_writes := []
    message_boxes := [] }

/-- `KiteInstallerDialog.welcome`: hides the integration and installation
widgets and makes the welcome widget visible. -/
def welcome (s : KiteInstallerDialog) : KiteInstallerDialog :=
  { s with
    integration_visible := false
    installation_widget := { s.installation_widget with visible := false }
    welcome_visible := true }

/-- `KiteInstallerDialog.install`: hides the welcome and integration
widgets, invokes `self._installation_thread.install()` and makes the
installation widget visible. -/
def install (s : KiteInstallerDialog) : KiteInstallerDialog :=
  { s with
    welcome_visible := false
    integration_visible := false
    thread := { s.thread with installCalls := s.thread.installCalls + 1 }
    installation_widget := { s.installation_widget with visible := true } }

/-- `KiteInstallerDialog.cancel_install`: asks the user for confirmation
(the blocking `QMessageBox.critical` is modelled by the `reply` input,
`true` standing for `QMessageBox.Yes`); when the reply is Yes and the
thread is running, sets `self._installation_thread.cancelled = True`,
invokes `self._installation_thread.quit()`, hides the dialog and returns
`True`; otherwise returns `False`. -/
def cancel_install (s : KiteInstallerDialog) (reply : Bool) :
    Bool × KiteInstallerDialog :=
  if reply && s.thread.running then
    (true,
      { s with
        thread :=
          { s.thread with
            cancelled := true
            quitCalls := s.thread.quitCalls + 1 }
        dialog_visible := false })
  else
    (false, s)

/-- `KiteInstallerDialog.finished_installation`: accepts the dialog when
the notified status is `FINISHED`. -/
def finished_installation (s : KiteInstallerDialog) (status : String) :
    KiteInstallerDialog :=
  if status = FINISHED then s.accept else s

/-- `KiteInstallerDialog.close_installer`: accepts the dialog when the
worker status is `ERRORED`, `FINISHED` or `CANCELLED`, and hides it
otherwise. -/
def close_installer (s : KiteInstallerDialog) : KiteInstallerDialog :=
  if s.thread.status = ERRORED ∨ s.thread.status = FINISHED
      ∨ s.thread.status = CANCELLED then
    s.accept
  else
    s.hide

/-- `KiteInstallerDialog.reject` (Qt method override): when the
installation widget is visible, hides the dialog; otherwise writes
`CONF.set('kite', 'installation/enabled', False)` and invokes the base
class reject. -/
def reject (s : KiteInstallerDialog) : KiteInstallerDialog :=
  let on_installation_widget := s.installation_widget.visible
  if on_installation_widget then
    s.hide
  else
    superReject
      { s with
        conf_writes :=
          s.conf_writes
            ++ [{ sectionName := "kite"
                  option := "installation/enabled"
                  value := false }] }

/-- `KiteInstallerDialog._handle_error_msg`: displays the blocking error
message box (whose text is fixed and does not use `msg`) with the
"Contact Kite for help" button, then accepts the dialog. -/
def handle_error_msg (s : KiteInstallerDialog) (_msg : String) :
    KiteInstallerDialog :=
  accept { s with message_boxes := s.message_boxes ++ [kiteInstallErrorBox] }

end KiteInstallerDialog

/-- The operations of the dialog reachable through its buttons and the
worker notifications: the signal wiring in `__init__` connects the learn
more button to `welcome`, the install buttons to `install`, the dismiss
buttons to `reject`, the OK button to `close_installer`, the cancel button
to `cancel_install`, `sig_installation_status` to both
`update_installation_status` and `finished_installation`,
`sig_download_progress` to `update_installation_progress`, and
`sig_error_msg` to `_handle_error_msg`. -/
inductive Op where
  | welcomeOp : Op
  | installOp : Op
  | cancelInstallOp : Bool → Op
  | finishedInstallationOp : String → Op
  | closeInstallerOp : Op
  | rejectOp : Op
  | handleErrorMsgOp : String → Op
  | updateStatusOp : String → Op
  | updateProgressOp : Int → Int → Op
deriving DecidableEq

/-- One dialog operation applied to the dialog state. -/
def KiteInstallerDialog.step (s : KiteInstallerDialog) : Op → KiteInstallerDialog
  | Op.welcomeOp => s.welcome
  | Op.installOp => s.install
  | Op.cancelInstallOp reply => (s.cancel_install reply).2
  | Op.finishedInstallationOp st => s.finished_installation st
  | Op.closeInstallerOp => s.close_installer
  | Op.rejectOp => s.reject
  | Op.handleErrorMsgOp m => s.handle_error_msg m
  | Op.updateStatusOp st =>
      { s with installation_widget :=
          s.installation_widget.update_installation_status st }
  | Op.updateProgressOp c t =>
      { s with installation_widget :=
          s.installation_widget.update_installation_progress c t }

/-- A sequence of dialog operations applied in order. -/
def KiteInstallerDialog.run : KiteInstallerDialog → List Op → KiteInstallerDialog
  | s, [] => s
  | s, op :: ops => (s.step op).run ops

/-- Sample worker thread, running with status `INSTALLING`. -/
def tInstalling : InstallationThread :=
  { status := INSTALLING, cancelled := false, running := true
    installCalls := 0, quitCalls := 0 }

/-- Sample worker thread with status `FINISHED`, not running. -/
def tFinished : InstallationThread :=
  { status := FINISHED, cancelled := false, running := false
    installCalls := 0, quitCalls := 0 }

/-- Sample dialog state: freshly constructed over `tInstalling`. -/
def sInstalling : KiteInstallerDialog := KiteInstallerDialog.init tInstalling

/-- Sample dialog state: freshly constructed over `tFinished`. -/
def sFinished : KiteInstallerDialog := KiteInstallerDialog.init tFinished

/-- Sample dialog state on the installation screen. -/
def sOnInstall : KiteInstallerDialog := sInstalling.install

/-- C1: `close_installer` accepts (permanently closes) the dialog exactly
when the worker status is one of `ERRORED`, `FINISHED` or `CANCELLED`,
and merely hides the dialog for every other status. -/
theorem close_installer_spec (s : KiteInstallerDialog) :
    ((s.thread.status = ERRORED ∨ s.thread.status = FINISHED
        ∨ s.thread.status = CANCELLED) →
      s.close_installer = s.accept) ∧
    (s.thread.status ≠ ERRORED → s.thread.status ≠ FINISHED →
      s.thread.status ≠ CANCELLED →
      s.close_installer = s.hide) := by
  constructor
  · intro h
    unfold KiteInstallerDialog.close_installer
    rw [if_pos h]
  · intro h1 h2 h3
    unfold KiteInstallerDialog.close_installer
    rw [if_neg (fun hc => hc.elim h1 (fun hc2 => hc2.elim h2 h3))]

/-- Witness for C1: on a state with status `FINISHED` the dialog is
accepted, on a state with status `INSTALLING` it is only hidden. -/
theorem close_installer_spec_witness :
    sFinished.close_installer = sFinished.accept ∧
    sInstalling.close_installer = sInstalling.hide :=
  ⟨(close_installer_spec sFinished).1 (Or.inr (Or.inl rfl)),
    (close_installer_spec sInstalling).2 (by decide) (by decide) (by decide)⟩

/-- C2: whenever the worker emits an error message, the dialog displays a
blocking message box offering a link to Kite support and then,
unconditionally on the worker status and the visible screen, accepts
(force-closes) itself. -/
theorem handle_error_msg_spec (s : KiteInstallerDialog) (msg : String) :
    (s.handle_error_msg msg).result = DialogResult.accepted ∧
    (s.handle_error_msg msg).dialog_visible = false ∧
    (s.handle_error_msg msg).message_boxes
      = s.message_boxes ++ [kiteInstallErrorBox] ∧
    kiteInstallErrorBox.helpUrl = "https://kite.com/contact/" :=
  ⟨rfl, rfl, rfl, rfl⟩

/-- C3: `reject` invoked while the installation widget is not visible
records the configuration write `('kite', 'installation/enabled', False)`
and rejects the dialog; invoked while the installation widget is visible it
only hides the dialog. -/
theorem reject_spec (s : KiteInstallerDialog) :
    (s.installation_widget.visible = false →
      s.reject.conf_writes
        = s.conf_writes
          ++ [{ sectionName := "kite", option := "installation/enabled",
                value := false }] ∧
      s.reject.result = DialogResult.rejected) ∧
    (s.installation_widget.visible = true → s.reject = s.hide) := by
  constructor
  · intro h
    unfold KiteInstallerDialog.reject
    rw [if_neg (by rw [h]; exact Bool.false_ne_true)]
    exact ⟨rfl, rfl⟩
  · intro h
    unfold KiteInstallerDialog.reject
    rw [if_pos h]

/-- Witness for C3: rejecting a freshly constructed dialog (installation
screen hidden) writes the configuration flag and rejects; rejecting from
the installation screen only hides. -/
theorem reject_spec_witness :
    (sInstalling.reject.conf_writes
      = sInstalling.conf_writes
        ++ [{ sectionName := "kite", option := "installation/enabled",
              value := false }] ∧
      sInstalling.reject.result = DialogResult.rejected) ∧
    sOnInstall.reject = sOnInstall.hide :=
  ⟨(reject_spec sInstalling).1 rfl, (reject_spec sOnInstall).2 rfl⟩

/-- C4: after `install`, the info and welcome screens are hidden, the
installation screen is visible, and the worker start-installation
operation has been invoked exactly once more. -/
theorem install_spec (s : KiteInstallerDialog) :
    s.install.integration_visible = false ∧
    s.install.welcome_visible = false ∧
    s.install.installation_widget.visible = true ∧
    s.install.thread.installCalls = s.thread.installCalls + 1 :=
  ⟨rfl, rfl, rfl, rfl⟩

/-- C5: when the user confirms and the worker thread is running,
`cancel_install` sets the worker cancelled flag, issues exactly one stop
request (`quit`), hides the dialog and returns `True`; it does not wait
for or verify shutdown: the worker running flag and status are read only
and left unchanged, and no further check is performed. -/
theorem cancel_install_spec (s : KiteInstallerDialog)
    (h : s.thread.running = true) :
    (s.cancel_install true).1 = true ∧
    (s.cancel_install true).2.thread.cancelled = true ∧
    (s.cancel_install true).2.thread.quitCalls = s.thread.quitCalls + 1 ∧
    (s.cancel_install true).2.dialog_visible = false ∧
    (s.cancel_install true).2.thread.running = s.thread.running ∧
    (s.cancel_install true).2.thread.status = s.thread.status := by
  unfold KiteInstallerDialog.cancel_install
  rw [if_pos (by rw [h]; rfl)]
  exact ⟨rfl, rfl, rfl, rfl, rfl, rfl⟩

/-- Witness for C5: cancelling on a running installation from the
installation screen. -/
theorem cancel_install_spec_witness :
    sOnInstall.thread.running = true ∧
    (sOnInstall.cancel_install true).1 = true ∧
    (sOnInstall.cancel_install true).2.thread.cancelled = true :=
  ⟨rfl,
    (cancel_install_spec sOnInstall rfl).1,
    (cancel_install_spec sOnInstall rfl).2.1⟩

/-- C10: `update_installation_status` sets the progress label to the given
status and switches the progress bar to the indeterminate range `(0, 0)`
exactly when the status is `INSTALLING`; for any other status the range is
left unchanged. -/
theorem update_installation_status_spec
    (w : KiteInstallation) (status : String) :
    (w.update_installation_status status).progress_label = status ∧
    (status = INSTALLING →
      (w.update_installation_status status).progress_min = 0 ∧
      (w.update_installation_status status).progress_max = 0) ∧
    (status ≠ INSTALLING →
      (w.update_installation_status status).progress_min = w.progress_min ∧
      (w.update_installation_status status).progress_max = w.progress_max)
    := by
  unfold KiteInstallation.update_installation_status
  by_cases h : status = INSTALLING
  · rw [if_pos h]
    exact ⟨rfl, fun _ => ⟨rfl, rfl⟩, fun hn => absurd h hn⟩
  · rw [if_neg h]
    exact ⟨rfl, fun hy => absurd hy h, fun _ => ⟨rfl, rfl⟩⟩

/-- Witness for C10: on the initial progress widget, status `INSTALLING`
switches the range to `(0, 0)` while status `CANCELLED` leaves the range
unchanged. -/
theorem update_installation_status_spec_witness :
    (sInstalling.installation_widget.update_installation_status
        INSTALLING).progress_max = 0 ∧
    (sInstalling.installation_widget.update_installation_status
        CANCELLED).progress_max
      = sInstalling.installation_widget.progress_max :=
  ⟨((update_installation_status_spec
      sInstalling.installation_widget INSTALLING).2.1 rfl).2,
    ((update_installation_status_spec
      sInstalling.installation_widget CANCELLED).2.2 (by decide)).2⟩

/-- Helper for C6: a single dialog operation never writes the worker
status or running flag. -/
theorem step_thread_frame (s : KiteInstallerDialog) (op : Op) :
    (s.step op).thread.status = s.thread.status ∧
    (s.step op).thread.running = s.thread.running := by
  cases op with
  | welcomeOp => exact ⟨rfl, rfl⟩
  | installOp => exact ⟨rfl, rfl⟩
  | cancelInstallOp reply =>
      simp only [KiteInstallerDialog.step, KiteInstallerDialog.cancel_install]
      split <;> exact ⟨rfl, rfl⟩
  | finishedInstallationOp st =>
      simp only [KiteInstallerDialog.step,
        KiteInstallerDialog.finished_installation]
      split <;> exact ⟨rfl, rfl⟩
  | closeInstallerOp =>
      simp only [KiteInstallerDialog.step,
        KiteInstallerDialog.close_installer]
      split <;> exact ⟨rfl, rfl⟩
  | rejectOp =>
      simp only [KiteInstallerDialog.step, KiteInstallerDialog.reject]
      split <;> exact ⟨rfl, rfl⟩
  | handleErrorMsgOp m => exact ⟨rfl, rfl⟩
  | updateStatusOp st => exact ⟨rfl, rfl⟩
  | updateProgressOp c t => exact ⟨rfl, rfl⟩

/-- C6: across every sequence of dialog operations, the worker status (and
its running flag) is only read, never written: it is unchanged by the
dialog; the only worker field the dialog mutates is the cancelled flag
(in `cancel_install`). -/
theorem run_never_writes_worker_status (s : KiteInstallerDialog)
    (ops : List Op) :
    (s.run ops).thread.status = s.thread.status ∧
    (s.run ops).thread.running = s.thread.running := by
  induction ops generalizing s with
  | nil => exact ⟨rfl, rfl⟩
  | cons op ops ih =>
      have h1 := step_thread_frame s op
      have h2 := ih (s.step op)
      simp only [KiteInstallerDialog.run]
      exact ⟨h2.1.trans h1.1, h2.2.trans h1.2⟩

/-- Helper for C7: a single dialog operation either leaves the
configuration-write trace unchanged or appends the single write
`('kite', 'installation/enabled', False)`. -/
theorem step_conf_frame (s : KiteInstallerDialog) (op : Op) :
    (s.step op).conf_writes = s.conf_writes ∨
    (s.step op).conf_writes
      = s.conf_writes
        ++ [{ sectionName := "kite", option := "installation/enabled",
              value := false }] := by
  cases op with
  | welcomeOp => exact Or.inl rfl
  | installOp => exact Or.inl rfl
  | cancelInstallOp reply =>
      simp only [KiteInstallerDialog.step, KiteInstallerDialog.cancel_install]
      split
      · exact Or.inl rfl
      · exact Or.inl rfl
  | finishedInstallationOp st =>
      simp only [KiteInstallerDialog.step,
        KiteInstallerDialog.finished_installation]
      split <;> exact Or.inl rfl
  | closeInstallerOp =>
      simp only [KiteInstallerDialog.step,
        KiteInstallerDialog.close_installer]
      split <;> exact Or.inl rfl
  | rejectOp =>
      simp only [KiteInstallerDialog.step, KiteInstallerDialog.reject]
      split
      · exact Or.inl rfl
      · exact Or.inr rfl
  | handleErrorMsgOp m => exact Or.inl rfl
  | updateStatusOp st => exact Or.inl rfl
  | updateProgressOp c t => exact Or.inl rfl

/-- Helper for C7: along any operation sequence, every recorded
configuration write was already present or is the kite-disable write. -/
theorem run_conf_frame (s : KiteInstallerDialog) (ops : List Op)
    (w : ConfWrite) (hw : w ∈ (s.run ops).conf_writes) :
    w ∈ s.conf_writes ∨
    w = { sectionName := "kite", option := "installation/enabled",
          value := false } := by
  induction ops generalizing s with
  | nil => exact Or.inl hw
  | cons op ops ih =>
      simp only [KiteInstallerDialog.run] at hw
      rcases ih (s.step op) hw with h | h
      · rcases step_conf_frame s op with he | he
        · exact Or.inl (he ▸ h)
        · rw [he] at h
          rcases List.mem_append.1 h with h | h
          · exact Or.inl h
          · exact Or.inr (List.mem_singleton.1 h)
      · exact Or.inr h

/-- C7: starting from a freshly constructed dialog, the only write ever
issued to the configuration store, across every sequence of operations, is
setting `installation/enabled` in section `kite` to `False`; no other key
is written and the flag is never set to `True`. -/
theorem conf_writes_only_kite_disable (t : InstallationThread)
    (ops : List Op) (w : ConfWrite)
    (hw : w ∈ ((KiteInstallerDialog.init t).run ops).conf_writes) :
    w = { sectionName := "kite", option := "installation/enabled",
          value := false } := by
  rcases run_conf_frame (KiteInstallerDialog.init t) ops w hw with h | h
  · exact absurd h (List.not_mem_nil w)
  · exact h

/-- First configuration write recorded after dismissing a freshly
constructed dialog from the info screen. -/
def wExample : ConfWrite :=
  (((KiteInstallerDialog.init tInstalling).run [Op.rejectOp]).conf_writes).headD
    { sectionName := "", option := "", value := true }

/-- Witness for C7: after a single dismissal from the info screen, the
recorded configuration write is the kite-disable write. -/
theorem conf_writes_only_kite_disable_witness :
    wExample = { sectionName := "kite", option := "installation/enabled",
                 value := false } :=
  conf_writes_only_kite_disable tInstalling [Op.rejectOp] wExample (by decide)

/-- Number of the three screen widgets currently visible. -/
def screensVisibleCount (s : KiteInstallerDialog) : Nat :=
  (cond s.integration_visible 1 0) + (cond s.welcome_visible 1 0)
    + (cond s.installation_widget.visible 1 0)

/-- Helper for C8: every dialog operation preserves the at-most-one-screen
invariant. -/
theorem step_screens_invariant (s : KiteInstallerDialog) (op : Op)
    (h : screensVisibleCount s ≤ 1) :
    screensVisibleCount (s.step op) ≤ 1 := by
  cases op with
  | welcomeOp => exact le_refl 1
  | installOp => exact le_refl 1
  | cancelInstallOp reply =>
      simp only [KiteInstallerDialog.step, KiteInstallerDialog.cancel_install]
      split
      · exact h
      · exact h
  | finishedInstallationOp st =>
      simp only [KiteInstallerDialog.step,
        KiteInstallerDialog.finished_installation]
      split <;> exact h
  | closeInstallerOp =>
      simp only [KiteInstallerDialog.step,
        KiteInstallerDialog.close_installer]
      split <;> exact h
  | rejectOp =>
      simp only [KiteInstallerDialog.step, KiteInstallerDialog.reject]
      split <;> exact h
  | handleErrorMsgOp m => exact h
  | updateStatusOp st =>
      simp only [KiteInstallerDialog.step,
        KiteInstallation.update_installation_status]
      split <;> exact h
  | updateProgressOp c t => exact h

/-- Helper for C8: the invariant is preserved along any operation
sequence. -/
theorem run_screens_invariant (s : KiteInstallerDialog) (ops : List Op)
    (h : screensVisibleCount s ≤ 1) :
    screensVisibleCount (s.run ops) ≤ 1 := by
  induction ops generalizing s with
  | nil => exact h
  | cons op ops ih =>
      exact ih (s.step op) (step_screens_invariant s op h)

/-- C8: after construction exactly the info screen is visible; at most one
of the three screens is visible after any sequence of operations; and the
screen transitions `welcome` and `install` each hide the other two screens
and show exactly their own. -/
theorem screens_exclusive (t : InstallationThread) (ops : List Op)
    (s : KiteInstallerDialog) :
    (KiteInstallerDialog.init t).integration_visible = true ∧
    screensVisibleCount (KiteInstallerDialog.init t) = 1 ∧
    screensVisibleCount ((KiteInstallerDialog.init t).run ops) ≤ 1 ∧
    (s.welcome.welcome_visible = true ∧
      screensVisibleCount s.welcome = 1) ∧
    (s.install.installation_widget.visible = true ∧
      screensVisibleCount s.install = 1) :=
  ⟨rfl, rfl,
    run_screens_invariant (KiteInstallerDialog.init t) ops (le_refl 1),
    ⟨rfl, rfl⟩, ⟨rfl, rfl⟩⟩

/-- C9: if the user declines the confirmation or the worker thread is not
running, `cancel_install` returns `False` and leaves the whole state
unchanged (cancelled flag not set, no stop request, dialog not hidden);
it returns `True` only when the user confirmed, the thread was running,
the cancelled flag was set and the stop was requested. -/
theorem cancel_install_no_op (s : KiteInstallerDialog) (reply : Bool) :
    (reply = false ∨ s.thread.running = false →
      s.cancel_install reply = (false, s)) ∧
    ((s.cancel_install reply).1 = true →
      reply = true ∧ s.thread.running = true ∧
      (s.cancel_install reply).2.thread.cancelled = true ∧
      (s.cancel_install reply).2.thread.quitCalls
        = s.thread.quitCalls + 1) := by
  unfold KiteInstallerDialog.cancel_install
  by_cases hc : (reply && s.thread.running) = true
  · rw [if_pos hc]
    obtain ⟨h1, h2⟩ := Bool.and_eq_true_iff.1 hc
    constructor
    · intro h
      rcases h with h | h
      · rw [h] at h1; exact absurd h1 Bool.false_ne_true
      · rw [h] at h2; exact absurd h2 Bool.false_ne_true
    · intro _
      exact ⟨h1, h2, rfl, rfl⟩
  · rw [if_neg hc]
    constructor
    · intro _; rfl
    · intro h; exact absurd h Bool.false_ne_true

/-- Witness for C9: declining on a running installation, or confirming
while the worker is not running, leaves the state unchanged and returns
`False`; confirming on a running installation sets the cancelled flag. -/
theorem cancel_install_no_op_witness :
    sOnInstall.cancel_install false = (false, sOnInstall) ∧
    sFinished.cancel_install true = (false, sFinished) ∧
    (sOnInstall.cancel_install true).2.thread.cancelled = true :=
  ⟨(cancel_install_no_op sOnInstall false).1 (Or.inl rfl),
    (cancel_install_no_op sFinished true).1 (Or.inr rfl),
    ((cancel_install_no_op sOnInstall true).2 (by decide)).2.2.1⟩
